import Mathlib

/-!
Verification of the Tiny RTC I2C board firmware (`src/main.c`) against its
specification.

The file embeds the device-profile layer of `main.c` (RTC RAM accessors,
EEPROM accessors, RTC initialization, the time-register codec) over an
explicit I2C bus-state model.  The bus primitive layer (`i2c/i2c.c`) is not
part of the repository snapshot, so its block-transfer operations are
modelled from the specification's description of them (single pointer-set
write followed by a data read, address encoded in one or two bytes).

C machine integers are modelled as `Nat` with explicit `% 2^w` reductions at
the points where the C types truncate: in particular the `uint8_t len`
parameter of `rtc_get_ram_buf`, `rtc_set_ram_buf` and `eeprom_set_data`, and
the `uint16_t` parameters of the EEPROM accessors.
-/

namespace TinyRTC

/-- A single bus transaction, as seen by the two-wire bus: either an
addressed write of a byte sequence, or an addressed read of a length. -/
inductive Txn where
  | write (dev : Nat) (bytes : List Nat)
  | read (dev : Nat) (len : Nat)
deriving DecidableEq, Repr

/-- The observable I2C world: per-device register/memory contents, and the
chronological trace of bus transactions issued so far. -/
structure I2CState where
  mem : Nat → Nat → Nat
  trace : List Txn

/-- Store `data` into device `dev`'s register space starting at `reg`;
all other cells keep their old value. -/
def memWrite (m : Nat → Nat → Nat) (dev reg : Nat) (data : List Nat) :
    Nat → Nat → Nat :=
  fun d a =>
    if d = dev ∧ reg ≤ a ∧ a < reg + data.length then data.getD (a - reg) 0
    else m d a

/-- Modelled from the spec: `i2c_wr_addr_blk` (declared in `i2c/i2c.h`,
implementation not under `src/`).  Issues a single bus write transaction
whose payload is the 8-bit register address followed by `len` payload
bytes; the device stores the payload at `reg`.  Returns the transaction
status (0 on the reliable bus modelled here) and the new bus state. -/
def i2c_wr_addr_blk (dev reg : Nat) (buf : List Nat) (len : Nat)
    (s : I2CState) : Int × I2CState :=
  let r := reg % 256
  let data := buf.take len
  (0, { mem := memWrite s.mem dev r data,
        trace := s.trace ++ [Txn.write dev (r :: data)] })

/-- Modelled from the spec: `i2c_rd_addr_blk` (declared in `i2c/i2c.h`,
implementation not under `src/`).  Issues a bus write transaction carrying
only the 8-bit register address (pointer set), then a bus read transaction
of `len` bytes.  Returns the status, the bytes read and the new state. -/
def i2c_rd_addr_blk (dev reg len : Nat) (s : I2CState) :
    Int × List Nat × I2CState :=
  let r := reg % 256
  (0, (List.range len).map (fun i => s.mem dev (r + i) % 256),
      { s with trace := s.trace ++ [Txn.write dev [r], Txn.read dev len] })

/-- Modelled from the spec: `i2c_wr_addr16_blk`.  As `i2c_wr_addr_blk` but
with a 16-bit register address encoded most-significant byte first. -/
def i2c_wr_addr16_blk (dev reg : Nat) (buf : List Nat) (len : Nat)
    (s : I2CState) : Int × I2CState :=
  let r := reg % 65536
  let data := buf.take len
  (0, { mem := memWrite s.mem dev r data,
        trace := s.trace ++ [Txn.write dev (r / 256 :: r % 256 :: data)] })

/-- Modelled from the spec: `i2c_rd_addr16_blk`.  As `i2c_rd_addr_blk` but
with a 16-bit register address encoded most-significant byte first. -/
def i2c_rd_addr16_blk (dev reg len : Nat) (s : I2CState) :
    Int × List Nat × I2CState :=
  let r := reg % 65536
  (0, (List.range len).map (fun i => s.mem dev (r + i) % 256),
      { s with
        trace := s.trace ++ [Txn.write dev [r / 256, r % 256], Txn.read dev len] })

/-- Modelled from the spec: `i2c_wr_addr_byte`, the degenerate one-byte
form of the block write used for control registers. -/
def i2c_wr_addr_byte (dev reg val : Nat) (s : I2CState) : Int × I2CState :=
  let r := reg % 256
  (0, { mem := memWrite s.mem dev r [val % 256],
        trace := s.trace ++ [Txn.write dev [r, val % 256]] })

/-- Modelled from the spec: 7-bit bus address of the DS1307 RTC, a
compile-time constant declared in `i2c/i2c.h` (not under `src/`). -/
def DS1307 : Nat := 0x68

/-- Modelled from the spec: 7-bit bus address of the AT24C32 EEPROM, a
compile-time constant declared in `i2c/i2c.h` (not under `src/`). -/
def AT24C32 : Nat := 0x50

/-- `#define RTC_REG_START_TIME (uint8_t)0x00` in `src/main.c`. -/
def RTC_REG_START_TIME : Nat := 0x00

/-- `#define RTC_REG_RAM_BUF_START (uint8_t)0x08` in `src/main.c`. -/
def RTC_REG_RAM_BUF_START : Nat := 0x08

/-- `#define RTC_RAM_SIZE (uint8_t)56` in `src/main.c`. -/
def RTC_RAM_SIZE : Nat := 56

/-- `#define EEPROM_SIZE (uint16_t)4096` in `src/main.c`. -/
def EEPROM_SIZE : Nat := 4096

/-- `struct rtc_time_var` from `src/main.c`. -/
structure rtc_time_var where
  sec_10 : Nat
  sec_1 : Nat
  min_10 : Nat
  min_1 : Nat
deriving DecidableEq, Repr

/-- `static const char Dummy_EEPROM[] = "EEPROM_Dummy_data";` in `src/main.c`. -/
def Dummy_EEPROM : String := "EEPROM_Dummy_data"

/-- `static const char Dummy_RTC_RAM[] = "RTC_RAM_Dummy_data";` in `src/main.c`. -/
def Dummy_RTC_RAM : String := "RTC_RAM_Dummy_data"

/-- The bytes of a C string as passed to the accessors (no NUL terminator;
`strlen` of the string is the length of this list). -/
def strBytes (str : String) : List Nat := str.toList.map Char.toNat

/-- `rtc_init` from `src/main.c`: block-write `RTC_RAM_SIZE` zero bytes at
the RAM base offset, then write value 0 to the start/stop register. -/
def rtc_init (s : I2CState) : I2CState :=
  let s1 := (i2c_wr_addr_blk DS1307 RTC_REG_RAM_BUF_START
      (List.replicate RTC_RAM_SIZE 0) RTC_RAM_SIZE s).2
  (i2c_wr_addr_byte DS1307 RTC_REG_START_TIME 0 s1).2

/-- `rtc_get_time_var` from `src/main.c`: read two bytes starting at
register 0, then decode each into tens/units digits by masking.  Returns
the filled `struct rtc_time_var` and the new bus state. -/
def rtc_get_time_var (s : I2CState) : rtc_time_var × I2CState :=
  let rd := i2c_rd_addr_blk DS1307 RTC_REG_START_TIME 2 s
  let sec := rd.2.1.getD 0 0
  let min := rd.2.1.getD 1 0
  ({ sec_1 := sec &&& 0x0F, sec_10 := (sec &&& 0x70) >>> 4,
     min_1 := min &&& 0x0F, min_10 := (min &&& 0x70) >>> 4 }, rd.2.2)

/-- `rtc_get_ram_buf` from `src/main.c`.  The C parameter `len` is a
`uint8_t`, modelled by reducing the argument mod 256 on entry.  Returns
the C return value, the bytes read into the caller's buffer (empty when
the call fails before any bus activity) and the new bus state. -/
def rtc_get_ram_buf (len : Nat) (s : I2CState) : Int × List Nat × I2CState :=
  let l := len % 256
  if l ≥ RTC_RAM_SIZE then (-1, [], s)
  else i2c_rd_addr_blk DS1307 RTC_REG_RAM_BUF_START l s

/-- `rtc_set_ram_buf` from `src/main.c`.  The C parameter `len` is a
`uint8_t`, modelled by reducing the argument mod 256 on entry. -/
def rtc_set_ram_buf (buf : List Nat) (len : Nat) (s : I2CState) :
    Int × I2CState :=
  let l := len % 256
  if l ≥ RTC_RAM_SIZE then (-1, s)
  else i2c_wr_addr_blk DS1307 RTC_REG_RAM_BUF_START buf l s

/-- `eeprom_get_data` from `src/main.c`.  The C parameters `reg_idx` and
`len` are `uint16_t`, modelled by reducing the arguments mod 65536 on
entry. -/
def eeprom_get_data (reg_idx len : Nat) (s : I2CState) :
    Int × List Nat × I2CState :=
  let l := len % 65536
  if l ≥ EEPROM_SIZE then (-1, [], s)
  else i2c_rd_addr16_blk AT24C32 (reg_idx % 65536) l s

/-- `eeprom_set_data` from `src/main.c`.  The C parameter `reg_idx` is a
`uint16_t` and `len` is a `uint8_t`, modelled by reducing the arguments
mod 65536 and mod 256 respectively on entry. -/
def eeprom_set_data (reg_idx : Nat) (buf : List Nat) (len : Nat)
    (s : I2CState) : Int × I2CState :=
  let l := len % 256
  if l ≥ EEPROM_SIZE then (-1, s)
  else i2c_wr_addr16_blk AT24C32 (reg_idx % 65536) buf l s

/-- The EEPROM leg of the demo flow in `main` (`src/main.c` lines 126 and
138): write the dummy string at register address 0 with length
`strlen(Dummy_EEPROM)`, then read that many bytes back from address 0;
the result is the bytes the read places in `i2c_buf`. -/
def main_eeprom_demo (s : I2CState) : List Nat :=
  let s1 := (eeprom_set_data 0 (strBytes Dummy_EEPROM)
      (strBytes Dummy_EEPROM).length s).2
  (eeprom_get_data 0 (strBytes Dummy_EEPROM).length s1).2.1

/-- The RTC-RAM leg of the demo flow in `main` (`src/main.c` lines 125 and
135): write the dummy string to the RTC RAM with length
`strlen(Dummy_RTC_RAM)`, then read that many bytes back. -/
def main_rtc_ram_demo (s : I2CState) : List Nat :=
  let s1 := (rtc_set_ram_buf (strBytes Dummy_RTC_RAM)
      (strBytes Dummy_RTC_RAM).length s).2
  (rtc_get_ram_buf (strBytes Dummy_RTC_RAM).length s1).2.1

/-- A concrete bus state: all device memory zeroed, no transactions yet. -/
def s0 : I2CState := ⟨fun _ _ => 0, []⟩

/-- A cell inside the range of a `memWrite` holds the stored byte. -/
theorem memWrite_in (m : Nat → Nat → Nat) (dev reg : Nat) (data : List Nat)
    (a : Nat) (h1 : reg ≤ a) (h2 : a < reg + data.length) :
    memWrite m dev reg data dev a = data.getD (a - reg) 0 := by
  unfold memWrite
  rw [if_pos ⟨rfl, h1, h2⟩]

/-- A cell outside the range of a `memWrite` keeps its old value. -/
theorem memWrite_out (m : Nat → Nat → Nat) (dev reg : Nat) (data : List Nat)
    (d a : Nat) (h : ¬(d = dev ∧ reg ≤ a ∧ a < reg + data.length)) :
    memWrite m dev reg data d a = m d a := by
  unfold memWrite
  rw [if_neg h]

/-- Reading back a cell that a `memWrite` covered returns the stored byte. -/
theorem memWrite_read (m : Nat → Nat → Nat) (dev reg : Nat) (data : List Nat)
    (i : Nat) (h : i < data.length) :
    memWrite m dev reg data dev (reg + i) = data.getD i 0 := by
  rw [memWrite_in m dev reg data (reg + i) (Nat.le_add_right _ _) (by omega)]
  congr 1
  omega

/-- An 8-bit-address block read returns exactly the bytes a preceding
block write of the same length at the same register stored. -/
theorem rd_blk_after_wr_blk (dev reg len : Nat) (buf : List Nat)
    (s : I2CState) (hlen : len ≤ buf.length) (hbyte : ∀ b ∈ buf, b < 256) :
    (i2c_rd_addr_blk dev reg len (i2c_wr_addr_blk dev reg buf len s).2).2.1
      = buf.take len := by
  simp only [i2c_rd_addr_blk, i2c_wr_addr_blk]
  apply List.ext_getElem
  · simp [Nat.min_eq_left hlen]
  · intro i h1 h2
    simp only [List.getElem_map, List.getElem_range]
    rw [memWrite_read _ _ _ _ i (by simpa [Nat.min_eq_left hlen] using h2),
      List.getD_eq_getElem _ _ (by simpa [Nat.min_eq_left hlen] using h2)]
    exact Nat.mod_eq_of_lt (hbyte _ (List.take_subset _ _ (List.getElem_mem _)))

/-- A 16-bit-address block read returns exactly the bytes a preceding
block write of the same length at the same register stored. -/
theorem rd_blk16_after_wr_blk16 (dev reg len : Nat) (buf : List Nat)
    (s : I2CState) (hlen : len ≤ buf.length) (hbyte : ∀ b ∈ buf, b < 256) :
    (i2c_rd_addr16_blk dev reg len (i2c_wr_addr16_blk dev reg buf len s).2).2.1
      = buf.take len := by
  simp only [i2c_rd_addr16_blk, i2c_wr_addr16_blk]
  apply List.ext_getElem
  · simp [Nat.min_eq_left hlen]
  · intro i h1 h2
    simp only [List.getElem_map, List.getElem_range]
    rw [memWrite_read _ _ _ _ i (by simpa [Nat.min_eq_left hlen] using h2),
      List.getD_eq_getElem _ _ (by simpa [Nat.min_eq_left hlen] using h2)]
    exact Nat.mod_eq_of_lt (hbyte _ (List.take_subset _ _ (List.getElem_mem _)))

/-- A bus state whose RTC seconds register (0) and minutes register (1)
hold the two given raw bytes; every other cell is zero. -/
def timeState (sec min : Nat) : I2CState :=
  ⟨fun d a =>
    if d = DS1307 ∧ a = 0 then sec else if d = DS1307 ∧ a = 1 then min else 0,
   []⟩

/-- Reduction of `rtc_get_time_var` on a `timeState`. -/
theorem rtc_get_time_var_timeState (a b : Nat) :
    (rtc_get_time_var (timeState a b)).1
      = ⟨(a % 256 &&& 0x70) >>> 4, a % 256 &&& 0x0F,
         (b % 256 &&& 0x70) >>> 4, b % 256 &&& 0x0F⟩ := by
  simp [rtc_get_time_var, i2c_rd_addr_blk, timeState, RTC_REG_START_TIME,
    DS1307, List.range_succ]

set_option maxRecDepth 4000 in
/-- Per-byte arithmetic reading of the two mask operations of the codec. -/
theorem byte_mask_arith :
    ∀ b < 256, b &&& 0x0F = b % 16 ∧ (b &&& 0x70) >>> 4 = b / 16 % 8
      ∧ (b &&& 0x70) >>> 4 ≤ 7 := by decide

/-- The bus trace left by `rtc_init`: one block write of 56 zero bytes at
the RAM base, then one control write of value 0 to register 0. -/
theorem rtc_init_trace (s : I2CState) :
    (rtc_init s).trace = s.trace
      ++ [Txn.write DS1307 (RTC_REG_RAM_BUF_START :: List.replicate RTC_RAM_SIZE 0),
          Txn.write DS1307 [RTC_REG_START_TIME, 0]] := by
  simp [rtc_init, i2c_wr_addr_blk, i2c_wr_addr_byte, RTC_REG_RAM_BUF_START,
    RTC_RAM_SIZE, RTC_REG_START_TIME]

/-- After `rtc_init`, every byte of the 56-byte RTC RAM window is zero. -/
theorem rtc_init_mem (s : I2CState) (i : Nat) (h : i < RTC_RAM_SIZE) :
    (rtc_init s).mem DS1307 (RTC_REG_RAM_BUF_START + i) = 0 := by
  have h56 : i < 56 := h
  simp only [rtc_init, i2c_wr_addr_blk, i2c_wr_addr_byte,
    RTC_REG_RAM_BUF_START, RTC_RAM_SIZE, RTC_REG_START_TIME]
  rw [memWrite_out _ _ _ _ _ _ (by simp),
    List.take_of_length_le (by simp),
    memWrite_in _ _ _ _ _ (by omega) (by simp; omega),
    List.getD_eq_getElem _ _ (by simp; omega), List.getElem_replicate]

/-- **C4.**  The time-register codec in `rtc_get_time_var` is total over
all 256 byte values: for every raw seconds/minutes byte, the units digit
is the byte's low 4 bits (`b % 16`) and the tens digit is bits 4–6 shifted
right by 4 (`b / 16 % 8`), hence always at most 7; no input is rejected.
In particular raw byte 0x45 decodes to tens 4 / units 5, 0x00 to 0 / 0,
and the non-BCD byte 0x79 to tens 7 / units 9. -/
theorem C4_time_codec (sec min : Nat) :
    ((rtc_get_time_var (timeState sec min)).1.sec_1 = sec % 256 % 16
      ∧ (rtc_get_time_var (timeState sec min)).1.sec_10 = sec % 256 / 16 % 8
      ∧ (rtc_get_time_var (timeState sec min)).1.min_1 = min % 256 % 16
      ∧ (rtc_get_time_var (timeState sec min)).1.min_10 = min % 256 / 16 % 8
      ∧ (rtc_get_time_var (timeState sec min)).1.sec_10 ≤ 7
      ∧ (rtc_get_time_var (timeState sec min)).1.min_10 ≤ 7)
    ∧ (rtc_get_time_var (timeState 0x45 0x79)).1 = ⟨4, 5, 7, 9⟩
    ∧ (rtc_get_time_var (timeState 0x00 0x00)).1 = ⟨0, 0, 0, 0⟩ := by
  refine ⟨?_, ?_, ?_⟩
  · rw [rtc_get_time_var_timeState]
    obtain ⟨hs1, hs10, hs7⟩ := byte_mask_arith (sec % 256) (Nat.mod_lt _ (by omega))
    obtain ⟨hm1, hm10, hm7⟩ := byte_mask_arith (min % 256) (Nat.mod_lt _ (by omega))
    exact ⟨hs1, hs10, hm1, hm10, hs7, hm7⟩
  · rw [rtc_get_time_var_timeState]; decide
  · rw [rtc_get_time_var_timeState]; decide

/-- **C5.**  `rtc_init` clears all 56 bytes of the RTC RAM region to zero
via a single block write of 56 zero bytes at the RAM base offset 0x08, and
issues exactly one control write to the start/stop register (register 0)
with value 0: its whole bus trace is those two write transactions, in that
order. -/
theorem C5_rtc_init_clears_ram (s : I2CState) :
    (rtc_init s).trace = s.trace
      ++ [Txn.write DS1307 (RTC_REG_RAM_BUF_START :: List.replicate RTC_RAM_SIZE 0),
          Txn.write DS1307 [RTC_REG_START_TIME, 0]]
    ∧ (List.range RTC_RAM_SIZE).map
        (fun i => (rtc_init s).mem DS1307 (RTC_REG_RAM_BUF_START + i))
      = List.replicate RTC_RAM_SIZE 0 := by
  refine ⟨rtc_init_trace s, ?_⟩
  apply List.ext_getElem
  · simp
  · intro i h1 h2
    simp only [List.getElem_map, List.getElem_range, List.getElem_replicate]
    exact rtc_init_mem s i (by simpa using h1)

/-- **C6.**  (Modelled from the spec: the block-transfer layer is not under
`src/`.)  Every `read_block` call, in both address widths, issues exactly
two bus transactions: first a pointer-set write carrying only the encoded
register address (one byte for `i2c_rd_addr_blk`, two bytes MSB first for
`i2c_rd_addr16_blk`), then a data read of the requested length — in that
order, for any length including zero. -/
theorem C6_read_block_two_txns (dev reg len : Nat) (s : I2CState) :
    (i2c_rd_addr_blk dev reg len s).2.2.trace
      = s.trace ++ [Txn.write dev [reg % 256], Txn.read dev len]
    ∧ (i2c_rd_addr16_blk dev reg len s).2.2.trace
      = s.trace ++ [Txn.write dev [reg % 65536 / 256, reg % 65536 % 256],
          Txn.read dev len] := by
  exact ⟨rfl, rfl⟩

/-- **C10.**  `rtc_init` performs its RAM-clearing write with length
exactly `RTC_RAM_SIZE` (56) by calling the block-transfer layer directly
(its block write carries 56 data bytes after the register address), while
the public accessor `rtc_set_ram_buf` rejects that same length 56 with the
bounds error and no bus activity: initialization is not subject to the
accessors' strict `length < capacity` rule. -/
theorem C10_init_bypasses_bound (s : I2CState) (buf : List Nat) :
    rtc_set_ram_buf buf RTC_RAM_SIZE s = (-1, s)
    ∧ (rtc_init s).trace = s.trace
      ++ [Txn.write DS1307 (RTC_REG_RAM_BUF_START :: List.replicate RTC_RAM_SIZE 0),
          Txn.write DS1307 [RTC_REG_START_TIME, 0]]
    ∧ (List.replicate RTC_RAM_SIZE 0).length = RTC_RAM_SIZE := by
  exact ⟨rfl, rtc_init_trace s, by simp⟩

/-- Valid-length round trip through the RTC RAM accessors. -/
theorem rtc_ram_roundtrip (len : Nat) (buf : List Nat) (s : I2CState)
    (hcap : len < RTC_RAM_SIZE) (hbuf : len ≤ buf.length)
    (hbyte : ∀ b ∈ buf, b < 256) :
    (rtc_get_ram_buf len (rtc_set_ram_buf buf len s).2).2.1 = buf.take len := by
  have hc : len < 56 := hcap
  have h256 : len % 256 = len := Nat.mod_eq_of_lt (by omega)
  have hge : ¬ RTC_RAM_SIZE ≤ len := hcap.not_le
  simp only [rtc_get_ram_buf, rtc_set_ram_buf, h256, ge_iff_le, if_neg hge]
  exact rd_blk_after_wr_blk _ _ _ _ _ hbuf hbyte

/-- Round trip through the EEPROM accessors for lengths below 256 (the
bound the `uint8_t` length parameter of `eeprom_set_data` imposes). -/
theorem eeprom_roundtrip (reg_idx len : Nat) (buf : List Nat) (s : I2CState)
    (hcap : len < 256) (hbuf : len ≤ buf.length)
    (hbyte : ∀ b ∈ buf, b < 256) :
    (eeprom_get_data reg_idx len (eeprom_set_data reg_idx buf len s).2).2.1
      = buf.take len := by
  have h256 : len % 256 = len := Nat.mod_eq_of_lt hcap
  have h65536 : len % 65536 = len := Nat.mod_eq_of_lt (by omega)
  have hge : ¬ EEPROM_SIZE ≤ len := by unfold EEPROM_SIZE; omega
  simp only [eeprom_get_data, eeprom_set_data, h256, h65536, ge_iff_le,
    if_neg hge]
  exact rd_blk16_after_wr_blk16 _ _ _ _ _ hbuf hbyte

/-- **C1** (amended).  For the RTC RAM accessors, every length strictly
below the capacity 56 round-trips: `rtc_set_ram_buf` then
`rtc_get_ram_buf` at the same length returns exactly the written bytes.
For the EEPROM accessors the same holds for every length below 256 — the
bound forced by `eeprom_set_data`'s `uint8_t` length parameter — not for
every length below the 4096-byte capacity as the claim states. -/
theorem C1_write_read_roundtrip (reg_idx len : Nat) (buf : List Nat)
    (s : I2CState) (hbuf : len ≤ buf.length) (hbyte : ∀ b ∈ buf, b < 256) :
    (len < RTC_RAM_SIZE →
      (rtc_get_ram_buf len (rtc_set_ram_buf buf len s).2).2.1 = buf.take len)
    ∧ (len < 256 →
      (eeprom_get_data reg_idx len (eeprom_set_data reg_idx buf len s).2).2.1
        = buf.take len) :=
  ⟨fun h => rtc_ram_roundtrip len buf s h hbuf hbyte,
   fun h => eeprom_roundtrip reg_idx len buf s h hbuf hbyte⟩

/-- **C1** witness: a concrete 2-byte round trip through both device
profiles, from the all-zero bus state. -/
theorem C1_write_read_roundtrip_witness :
    ((2:Nat) ≤ ([10, 20, 30] : List Nat).length
      ∧ (∀ b ∈ ([10, 20, 30] : List Nat), b < 256)
      ∧ 2 < RTC_RAM_SIZE ∧ (2:Nat) < 256)
    ∧ (rtc_get_ram_buf 2 (rtc_set_ram_buf [10, 20, 30] 2 s0).2).2.1 = [10, 20]
    ∧ (eeprom_get_data 5 2 (eeprom_set_data 5 [10, 20, 30] 2 s0).2).2.1
        = [10, 20] := by
  refine ⟨⟨by decide, by decide, by decide, by decide⟩, ?_, ?_⟩
  · exact ((C1_write_read_roundtrip 5 2 [10, 20, 30] s0 (by decide)
      (by decide)).1 (by decide)).trans (by decide)
  · exact ((C1_write_read_roundtrip 5 2 [10, 20, 30] s0 (by decide)
      (by decide)).2 (by decide)).trans (by decide)

/-- **C1** counterexample.  Length 256 is strictly below the EEPROM
capacity 4096, yet writing 256 bytes of value 1 with `eeprom_set_data`
and reading 256 bytes back with `eeprom_get_data` does not return what
was written: the `uint8_t` length parameter of `eeprom_set_data`
truncates 256 to 0, so nothing is stored and the read returns the
device's old (zero) bytes. -/
theorem C1_counterexample :
    256 < EEPROM_SIZE
    ∧ (eeprom_get_data 0 256
        (eeprom_set_data 0 (List.replicate 256 1) 256 s0).2).2.1
      ≠ List.replicate 256 1 := by
  exact ⟨by decide, by decide⟩

/-- **C2** (amended).  For every length representable in its `uint8_t`
parameter and at least the capacity 56, each RTC RAM accessor returns the
bounds error −1 with the bus state untouched (zero transactions); for
every length representable in its `uint16_t` parameter and at least 4096,
`eeprom_get_data` does the same.  `eeprom_set_data`, however, has a
`uint8_t` length parameter, so no representable length reaches its
`len >= EEPROM_SIZE` check: for every representable length it forwards
the request to the bus layer, issuing one write transaction and never
returning the bounds error. -/
theorem C2_oversized_rejected (s : I2CState) (buf : List Nat)
    (reg_idx : Nat) :
    (∀ len, RTC_RAM_SIZE ≤ len → len < 256 →
      rtc_get_ram_buf len s = (-1, [], s)
      ∧ rtc_set_ram_buf buf len s = (-1, s))
    ∧ (∀ len, EEPROM_SIZE ≤ len → len < 65536 →
      eeprom_get_data reg_idx len s = (-1, [], s))
    ∧ (∀ len, len < 256 → (eeprom_set_data reg_idx buf len s).1 ≠ -1
      ∧ (eeprom_set_data reg_idx buf len s).2.trace.length
          = s.trace.length + 1) := by
  refine ⟨fun len h1 h2 => ?_, fun len h1 h2 => ?_, fun len h => ?_⟩
  · have h256 : len % 256 = len := Nat.mod_eq_of_lt h2
    constructor
    · simp only [rtc_get_ram_buf, h256, ge_iff_le, if_pos h1]
    · simp only [rtc_set_ram_buf, h256, ge_iff_le, if_pos h1]
  · have h65536 : len % 65536 = len := Nat.mod_eq_of_lt h2
    simp only [eeprom_get_data, h65536, ge_iff_le, if_pos h1]
  · have h256 : len % 256 = len := Nat.mod_eq_of_lt h
    have hge : ¬ EEPROM_SIZE ≤ len := by unfold EEPROM_SIZE; omega
    constructor
    · simp [eeprom_set_data, h256, ge_iff_le, if_neg hge, i2c_wr_addr16_blk]
    · simp [eeprom_set_data, h256, ge_iff_le, if_neg hge, i2c_wr_addr16_blk]

/-- **C2** witness: concrete oversized calls from the all-zero bus state,
and one representable `eeprom_set_data` call that is forwarded. -/
theorem C2_oversized_rejected_witness :
    (RTC_RAM_SIZE ≤ 56 ∧ (56:Nat) < 256 ∧ EEPROM_SIZE ≤ 4096
      ∧ (4096:Nat) < 65536 ∧ (0:Nat) < 256)
    ∧ rtc_get_ram_buf 56 s0 = (-1, [], s0)
    ∧ rtc_set_ram_buf [1] 56 s0 = (-1, s0)
    ∧ eeprom_get_data 7 4096 s0 = (-1, [], s0)
    ∧ (eeprom_set_data 7 [1] 0 s0).1 ≠ -1 := by
  refine ⟨⟨by decide, by decide, by decide, by decide, by decide⟩,
    ?_, ?_, ?_, ?_⟩
  · exact ((C2_oversized_rejected s0 [1] 7).1 56 (by decide) (by decide)).1
  · exact ((C2_oversized_rejected s0 [1] 7).1 56 (by decide) (by decide)).2
  · exact (C2_oversized_rejected s0 [1] 7).2.1 4096 (by decide) (by decide)
  · exact ((C2_oversized_rejected s0 [1] 7).2.2 0 (by decide)).1

/-- **C2** counterexample.  Called with length 4096 (equal to the declared
capacity), `eeprom_set_data` does not return the bounds error and does
not stay off the bus: the `uint8_t` parameter truncates 4096 to 0 and a
pointer-set write transaction is issued. -/
theorem C2_counterexample :
    EEPROM_SIZE ≤ 4096
    ∧ (eeprom_set_data 0 [] 4096 s0).1 = 0
    ∧ (eeprom_set_data 0 [] 4096 s0).2.trace = [Txn.write AT24C32 [0, 0]] := by
  exact ⟨by decide, by decide, by decide⟩

/-- **C3** (amended).  A transfer length equal to the full capacity is
rejected by `rtc_set_ram_buf`, `rtc_get_ram_buf` (at 56) and by
`eeprom_get_data` (at 4096), each returning −1 without touching the bus.
`eeprom_set_data`, whose length parameter is a `uint8_t`, cannot receive
4096: the value truncates to 0, which is accepted and forwarded as a
(zero-data-byte) write transaction. -/
theorem C3_capacity_boundary (s : I2CState) (buf : List Nat) :
    rtc_set_ram_buf buf RTC_RAM_SIZE s = (-1, s)
    ∧ rtc_get_ram_buf RTC_RAM_SIZE s = (-1, [], s)
    ∧ eeprom_get_data 0 EEPROM_SIZE s = (-1, [], s)
    ∧ (eeprom_set_data 0 buf EEPROM_SIZE s).1 = 0
    ∧ (eeprom_set_data 0 buf EEPROM_SIZE s).2.trace
        = s.trace ++ [Txn.write AT24C32 [0, 0]] := by
  exact ⟨rfl, rfl, rfl, rfl, rfl⟩

/-- **C3** counterexample.  At length exactly 4096 the EEPROM write
accessor does not reject: it returns bus success and issues a
transaction. -/
theorem C3_counterexample :
    (eeprom_set_data 0 (List.replicate 5 7) EEPROM_SIZE s0).1 ≠ -1
    ∧ (eeprom_set_data 0 (List.replicate 5 7) EEPROM_SIZE s0).2.trace
        ≠ s0.trace := by
  exact ⟨by decide, by decide⟩

/-- **C7** (amended).  The demo's EEPROM leg writes the 17 bytes of
`"EEPROM_Dummy_data"` (its `strlen`; the C array is 18 bytes only with
the NUL terminator) at register address 0 and reads 17 bytes back, and
the read-back equals the original string bytes exactly. -/
theorem C7_eeprom_demo_roundtrip (s : I2CState) :
    main_eeprom_demo s = strBytes Dummy_EEPROM := by
  have h := eeprom_roundtrip 0 (strBytes Dummy_EEPROM).length
    (strBytes Dummy_EEPROM) s (by decide) le_rfl (by decide)
  rw [List.take_length] at h
  exact h

/-- **C7** counterexample.  The demo's EEPROM transfer length is
`strlen("EEPROM_Dummy_data") = 17`, not 18 as the claim states: the read
in the demo flow returns 17 bytes. -/
theorem C7_counterexample :
    (strBytes Dummy_EEPROM).length = 17
    ∧ (main_eeprom_demo s0).length = 17
    ∧ (main_eeprom_demo s0).length ≠ 18 := by
  exact ⟨by decide, by decide, by decide⟩

/-- **C8** (amended).  The demo's RTC RAM leg writes the 18 bytes of
`"RTC_RAM_Dummy_data"` (its `strlen`; the C array is 19 bytes only with
the NUL terminator) at the RAM base offset and reads 18 bytes back, and
the read-back equals the original string bytes exactly. -/
theorem C8_rtc_ram_demo_roundtrip (s : I2CState) :
    main_rtc_ram_demo s = strBytes Dummy_RTC_RAM := by
  have h := rtc_ram_roundtrip (strBytes Dummy_RTC_RAM).length
    (strBytes Dummy_RTC_RAM) s (by decide) le_rfl (by decide)
  rw [List.take_length] at h
  exact h

/-- **C8** counterexample.  The demo's RTC RAM transfer length is
`strlen("RTC_RAM_Dummy_data") = 18`, not 19 as the claim states: the
read in the demo flow returns 18 bytes. -/
theorem C8_counterexample :
    (strBytes Dummy_RTC_RAM).length = 18
    ∧ (main_rtc_ram_demo s0).length = 18
    ∧ (main_rtc_ram_demo s0).length ≠ 19 := by
  exact ⟨by decide, by decide, by decide⟩

/-- **C9.**  The bounds-error branch of `eeprom_set_data` is unreachable:
its length parameter is a `uint8_t`, so for every representable length
(below 256) the call is forwarded unchanged to the 16-bit block-write
primitive and never returns the locally detected bounds error −1 —
unlike `eeprom_get_data`, whose 16-bit length parameter can trigger the
check (it rejects `EEPROM_SIZE` itself). -/
theorem C9_set_data_check_unreachable (reg_idx len : Nat) (buf : List Nat)
    (s : I2CState) (h : len < 256) :
    eeprom_set_data reg_idx buf len s
      = i2c_wr_addr16_blk AT24C32 (reg_idx % 65536) buf len s
    ∧ (eeprom_set_data reg_idx buf len s).1 ≠ -1
    ∧ eeprom_get_data reg_idx EEPROM_SIZE s = (-1, [], s) := by
  have h256 : len % 256 = len := Nat.mod_eq_of_lt h
  have hge : ¬ EEPROM_SIZE ≤ len := by unfold EEPROM_SIZE; omega
  refine ⟨?_, ?_, rfl⟩
  · simp only [eeprom_set_data, h256, ge_iff_le, if_neg hge]
  · simp [eeprom_set_data, h256, ge_iff_le, if_neg hge, i2c_wr_addr16_blk]

/-- **C9** witness: the largest representable length, 255, is forwarded
to the bus layer by `eeprom_set_data` from the all-zero bus state. -/
theorem C9_set_data_check_unreachable_witness :
    (255:Nat) < 256
    ∧ eeprom_set_data 3 [9] 255 s0
        = i2c_wr_addr16_blk AT24C32 (3 % 65536) [9] 255 s0
    ∧ (eeprom_set_data 3 [9] 255 s0).1 ≠ -1
    ∧ eeprom_get_data 3 EEPROM_SIZE s0 = (-1, [], s0) := by
  obtain ⟨h1, h2, h3⟩ := C9_set_data_check_unreachable 3 255 [9] s0 (by decide)
  exact ⟨by decide, h1, h2, h3⟩

end TinyRTC
